import Mathlib

/-! # Verification of the doxs docstring generator

A shallow embedding of `src/doxs/core.py` (the `doxs` library): the
`Annotation` wrapper class, the `apply` decorator, and its two helpers
`_apply_to_class` and `_apply_to_func`, which generate numpydoc-style
"Parameters" / "Returns" / "Attributes" text blocks from signatures and
type annotations and append them to the docstring of the decorated object.

The embedding follows the Python source line by line.  Facts about the host
language that the source relies on are modelled as checked against CPython
(the version the repository targets, 3.11):
  * `type(None).__name__ == "NoneType"`;
  * a builtin generic alias delegates attribute access to its origin, so
    `getattr(list[int], "__name__", str(list[int])) == "list"`;
  * `typing.Any.__name__ == "Any"`;
  * `typing.get_type_hints` passes instances of the wrapper class through
    unchanged, and maps an absent return annotation to nothing (the code
    then falls back to `inspect.Signature.empty`).
Mutation of interpreter objects is modelled by explicit object identities
(`id` fields): `def wrapper` allocates a fresh object, `return cls` returns
the very object that was mutated in place.
-/

namespace Doxs

/-! ## Python values (defaults and call results) -/

/-- The Python values needed by the claims: `None`, integers and booleans.
`None` doubles as the sentinel the source uses for "no default". -/
inductive PyValue where
  | none
  | int (n : Int)
  | bool (b : Bool)
deriving DecidableEq

/-- Python `repr` of the modelled values (`repr(None) == "None"`,
`repr(0) == "0"`, `repr(True) == "True"`). -/
def pyRepr : PyValue → String
  | PyValue.none => "None"
  | PyValue.int n => toString n
  | PyValue.bool b => if b then "True" else "False"

/-! ## The wrapper class (Python class `Annotation`, core.py lines 54-77)

It carries `(type_, description, default=None)`; `self.type` is a Python
type, of which only `__name__` is ever read, so it is modelled by that
name. -/

/-- Model of the Python class `Annotation` from core.py lines 54-77:
`typeName` stands for `self.type.__name__`, and `default` is `None` when
the keyword argument was not given (its declared default). -/
structure AnnWrap where
  typeName : String
  description : String
  default : PyValue := PyValue.none

/-! ## Annotation objects attached to parameters and returns -/

/-- The annotation objects the source inspects: a plain class (with a
`__name__`), a parameterized builtin generic alias such as `list[int]`
(origin plus argument list), `typing.Any`, or an instance of the wrapper
class. -/
inductive PyAnnot where
  | cls (name : String)
  | generic (origin : String) (args : List PyAnnot)
  | any
  | wrapped (a : AnnWrap)

/-- The apostrophe character, written by codepoint so that Python `repr`
strings can be reproduced. -/
def pyQuote : String := String.singleton (Char.ofNat 39)

/-- `getattr(annotation, "__name__", str(annotation))` as used at core.py
lines 235, 261 and 162.  A builtin generic alias delegates `__name__` to
its origin (`list[int].__name__ == "list"`, checked on CPython 3.9-3.12),
`typing.Any.__name__ == "Any"` (CPython 3.11), and a wrapper instance has
no `__name__`, so `str` falls back to its `__repr__` (core.py lines 73-77);
that last case is unreachable from the call sites below because the
`isinstance` branch is taken first. -/
def pyTypeName : PyAnnot → String
  | PyAnnot.cls n => n
  | PyAnnot.generic origin _ => origin
  | PyAnnot.any => "Any"
  | PyAnnot.wrapped a =>
      "Annotation(" ++ a.typeName ++ ", " ++ pyQuote ++ a.description ++ pyQuote
        ++ ", default=" ++ pyRepr a.default ++ ")"

/-! ## String helpers mirroring the Python builtins used by the source -/

/-- The whitespace characters stripped by Python `str.strip()`. -/
def pyWS (c : Char) : Bool :=
  c == ' ' || c == '\t' || c == '\n' || c == '\r' || c == '\x0b' || c == '\x0c'

/-- `str.strip()` on the character list: drop leading and trailing
whitespace. -/
def stripData (l : List Char) : List Char :=
  ((l.dropWhile pyWS).reverse.dropWhile pyWS).reverse

/-- Python `str.strip()`. -/
def pyStrip (s : String) : String := String.mk (stripData s.data)

/-- Python `sep.join(list)`. -/
def pyJoin (sep : String) : List String → String
  | [] => ""
  | [x] => x
  | x :: y :: xs => x ++ sep ++ pyJoin sep (y :: xs)

/-- Number of positions of `s` at which the pattern `pat` occurs
(Python `s.count(pat)` for the non-overlapping patterns used here). -/
def countOccurData (pat : List Char) : List Char → Nat
  | [] => 0
  | c :: rest => (if pat.isPrefixOf (c :: rest) then 1 else 0) + countOccurData pat rest

/-- Occurrence count of a pattern string inside a string. -/
def countOccur (pat s : String) : Nat := countOccurData pat.data s.data

/-- Python `s.startswith(pre)`. -/
def pyStartsWith (s pre : String) : Bool := pre.data.isPrefixOf s.data

/-! ## Formal parameters (`inspect.signature` view) -/

/-- One formal parameter as `_apply_to_func` sees it: its name, the entry
`get_type_hints(func).get(name, param.annotation)` (`Option.none` models
`inspect.Parameter.empty`, i.e. no annotation anywhere), and the declared
default (`Option.none` models `inspect.Parameter.empty`; a declared
`= None` is `some PyValue.none`). -/
structure Param where
  name : String
  annot : Option PyAnnot := Option.none
  default : Option PyValue := Option.none

/-- Core.py lines 221-239: resolve one parameter to its
`(typ, desc, default)` triple.  `annotation is inspect.Parameter.empty`
falls back to `Any`; absent defaults become `None`; a wrapper instance
supplies type, description and (when not `None`) default; otherwise the
type text comes from `getattr(..., "__name__", str(...))` with an empty
description; finally `params` (the decorator override table `ov`) replaces
the description when it holds the name. -/
def resolveSlot (ov : List (String × String)) (p : Param) : String × String × PyValue :=
  let ann : PyAnnot := p.annot.getD PyAnnot.any
  let default0 : PyValue := p.default.getD PyValue.none
  let base : String × String × PyValue :=
    match ann with
    | PyAnnot.wrapped a =>
        (a.typeName, a.description,
          if a.default ≠ PyValue.none then a.default else default0)
    | t => (pyTypeName t, "", default0)
  match List.lookup p.name ov with
  | some d => (base.1, d, base.2.2)
  | Option.none => base

/-- Core.py lines 241-247: the docstring lines contributed by one
parameter: the `name : typ` line, an indented description line when the
description is non-empty, an indented `Default:` line when the resolved
default is not `None`, and a closing blank line. -/
def paramEntry (ov : List (String × String)) (p : Param) : List String :=
  let r := resolveSlot ov p
  [p.name ++ " : " ++ r.1]
    ++ (if r.2.1 ≠ "" then ["    " ++ r.2.1] else [])
    ++ (if r.2.2 ≠ PyValue.none then ["    Default: " ++ pyRepr r.2.2] else [])
    ++ [""]

/-- Core.py lines 217-247: the loop over `sig.parameters`, skipping every
parameter whose name is exactly `"self"` (line 219) and concatenating the
entries in declaration order. -/
def paramDocs (ov : List (String × String)) (ps : List Param) : List String :=
  ((ps.filter fun q => q.name != "self").map (paramEntry ov)).flatten

/-- Core.py lines 249 and 269: `params_doc_str` is the joined entries,
stripped; the section body is that string, or the literal `"None"` when it
is empty (`params_doc_str if params_doc_str else "None"`). -/
def paramsBody (ov : List (String × String)) (ps : List Param) : String :=
  let pds := pyStrip (pyJoin "\n" (paramDocs ov ps))
  if pds ≠ "" then pds else "None"

/-- Core.py line 269: the literal Parameters header followed by the body. -/
def paramsSection (ov : List (String × String)) (ps : List Param) : String :=
  "Parameters:\n-----------\n" ++ paramsBody ov ps

/-! ## The `returns` decorator argument and the Returns section -/

/-- The `returns` keyword of `apply`: `Optional[Union[str, List[str]]]`. -/
inductive RetArg where
  | str (s : String)
  | list (l : List String)

/-- Core.py lines 263-267: `if returns:` (Python truthiness, so an empty
string or empty list does not override), a list is joined with `"; "`,
a string replaces the description. -/
def retDescOverride (returns : Option RetArg) (d : String) : String :=
  match returns with
  | Option.none => d
  | some (RetArg.str s) => if s ≠ "" then s else d
  | some (RetArg.list l) => if l ≠ [] then pyJoin "; " l else d

/-- Core.py lines 252-276: the Returns section.  An absent return
annotation (`inspect.Signature.empty`, modelled `Option.none`) is replaced
by `type(None)`, whose `__name__` is `"NoneType"`; a wrapper instance
supplies type and description; the body is the type (plus indented
description when non-empty) unless the type text is empty or literally
`"None"`, in which case it is the literal `"None"`. -/
def retBody (retAnn : Option PyAnnot) (returns : Option RetArg) : String :=
  let ra : PyAnnot := retAnn.getD (PyAnnot.cls "NoneType")
  let tp : String × String :=
    match ra with
    | PyAnnot.wrapped a => (a.typeName, a.description)
    | t => (pyTypeName t, "")
  let rd := retDescOverride returns tp.2
  if tp.1 ≠ "" ∧ tp.1 ≠ "None" then
    tp.1 ++ (if rd ≠ "" then "\n    " ++ rd else "")
  else "None"

/-- Core.py line 270: the literal Returns header followed by the body of
`retBody`. -/
def retSection (retAnn : Option PyAnnot) (returns : Option RetArg) : String :=
  "Returns:\n--------\n" ++ retBody retAnn returns

/-! ## Function objects and `_apply_to_func` -/

/-- A Python function object as the source uses it: its identity, its
`__doc__` (the source reads `func.__doc__ or ""`, so `""` models a missing
docstring), its signature (parameters and return annotation, both already
resolved through `get_type_hints` as described at `Param`), and its call
behaviour (`Except` carries a raised exception). -/
structure PyFunc where
  id : Nat
  doc : String := ""
  params : List Param := []
  retAnn : Option PyAnnot := Option.none
  call : List PyValue → Except String PyValue := fun _ => Except.ok PyValue.none

/-- The generated block of the spec merge rule: the Parameters section and
the Returns section separated by one blank line (the two pieces the source
joins after the original docstring at core.py line 279). -/
def genBlock (ov : List (String × String)) (returns : Option RetArg) (f : PyFunc) : String :=
  paramsSection ov f.params ++ "\n\n" ++ retSection f.retAnn returns

/-- Core.py line 279: `"\n".join([original_doc, "", params_section, "",
returns_section]).strip()`. -/
def newFuncDoc (ov : List (String × String)) (returns : Option RetArg) (f : PyFunc) : String :=
  pyStrip (pyJoin "\n" [f.doc, "", paramsSection ov f.params, "", retSection f.retAnn returns])

/-- Core.py lines 192-286, `_apply_to_func`: compute the new docstring and
return a fresh wrapper object (`def wrapper` allocates, hence the fresh
identity) that delegates every call to `func` unchanged; `functools.wraps`
copies `__wrapped__`/`__annotations__`, so the wrapper exposes the same
signature to a later decoration. The argument `func` itself is never
written to. -/
def applyToFunc (ov : List (String × String)) (returns : Option RetArg)
    (fresh : Nat) (func : PyFunc) : PyFunc :=
  { id := fresh
    doc := newFuncDoc ov returns func
    params := func.params
    retAnn := func.retAnn
    call := fun args => func.call args }

/-! ## Class objects and `_apply_to_class` -/

/-- A Python class object as the source uses it: identity, `__doc__`,
`__annotations__` (an ordered mapping, modelled as an association list),
the non-callable entries of `cls.__dict__` (class-variable defaults), and
the callable entries of `cls.__dict__` (the methods; `callable(attr_value)`
selects exactly these). -/
structure PyClass where
  id : Nat
  doc : String := ""
  anns : List (String × PyAnnot) := []
  values : List (String × PyValue) := []
  methods : List (String × PyFunc) := []

/-- Core.py lines 149-175: the docstring lines contributed by one annotated
class attribute.  `default` starts as `cls.__dict__.get(attr, None)`; a
wrapper annotation supplies type, description and (when not `None`)
default; `class_vars` overrides the description; the `Default:` line is
emitted only when `attr in cls.__dict__` (an explicit class-level value). -/
def attrEntry (classVars : List (String × String)) (values : List (String × PyValue))
    (attr : String × PyAnnot) : List String :=
  let default0 : PyValue := (List.lookup attr.1 values).getD PyValue.none
  let base : String × String × PyValue :=
    match attr.2 with
    | PyAnnot.wrapped a =>
        (a.typeName, a.description,
          if a.default ≠ PyValue.none then a.default else default0)
    | t => (pyTypeName t, "", default0)
  let r : String × String × PyValue :=
    match List.lookup attr.1 classVars with
    | some d => (base.1, d, base.2.2)
    | Option.none => base
  [attr.1 ++ " : " ++ r.1]
    ++ (if r.2.1 ≠ "" then ["    " ++ r.2.1] else [])
    ++ (if (List.lookup attr.1 values).isSome then ["    Default: " ++ pyRepr r.2.2] else [])
    ++ [""]

/-- Core.py lines 177-181: the stripped attribute block and
`"\n".join([original_doc, "", "Attributes:", "-----------", "",
attr_doc_str]).strip()`. -/
def newClassDoc (classVars : List (String × String)) (c : PyClass) : String :=
  let attrDocStr := pyStrip (pyJoin "\n" ((c.anns.map (attrEntry classVars c.values)).flatten))
  pyStrip (pyJoin "\n" [c.doc, "", "Attributes:", "-----------", "", attrDocStr])

/-- Core.py lines 184-187: the loop over the callable members of
`cls.__dict__`; a member whose name starts with `"__"` is left alone,
every other one is replaced by `apply(attr_value)`, i.e.
`_apply_to_func(attr_value, params=None, returns=None)`.  Each decoration
allocates a new wrapper; the counter is advanced once per member so that
the allocated identities are distinct. -/
def decorateMethods (fresh : Nat) : List (String × PyFunc) → List (String × PyFunc)
  | [] => []
  | m :: rest =>
      (if pyStartsWith m.1 "__" then m else (m.1, applyToFunc [] Option.none fresh m.2))
        :: decorateMethods (fresh + 1) rest

/-- Core.py lines 129-189, `_apply_to_class`: overwrite `cls.__doc__` in
place, re-bind the non-dunder callable members to decorated wrappers, and
return the same class object (same identity; annotations and plain values
untouched). -/
def applyToClass (classVars : List (String × String)) (fresh : Nat) (c : PyClass) : PyClass :=
  { c with
    doc := newClassDoc classVars c
    methods := decorateMethods fresh c.methods }

/-! ## The `apply` entry point -/

/-- An object handed to the decorator: a class, a callable, or anything
else. -/
inductive PyObj where
  | func (f : PyFunc)
  | cls (c : PyClass)
  | value (v : PyValue)

/-- Core.py lines 112-118, the dispatch of `apply`: classes go to
`_apply_to_class` with `class_vars`, callables to `_apply_to_func` with
`params` and `returns`, anything else is returned unchanged. -/
def applyDecorator (classVars ov : List (String × String)) (returns : Option RetArg)
    (fresh : Nat) : PyObj → PyObj
  | PyObj.cls c => PyObj.cls (applyToClass classVars fresh c)
  | PyObj.func f => PyObj.func (applyToFunc ov returns fresh f)
  | PyObj.value v => PyObj.value v

/-! ## Concrete objects used as inputs of the claims -/

/-- The function `def square(x: int) -> int` with no docstring
(the spec idempotence example). -/
def squareFn : PyFunc :=
  { id := 0
    doc := ""
    params := [{ name := "x", annot := some (PyAnnot.cls "int") }]
    retAnn := some (PyAnnot.cls "int")
    call := fun args =>
      match args with
      | [PyValue.int n] => Except.ok (PyValue.int (n * n))
      | _ => Except.error "TypeError" }

/-- `square` after one bare decoration, `apply(square)`. -/
def squareOnce : PyFunc := applyToFunc [] Option.none 1 squareFn

/-- `square` after decorating the already-decorated wrapper again,
`apply(apply(square))`. -/
def squareTwice : PyFunc := applyToFunc [] Option.none 2 squareOnce

/-- The method `def add(self, value: int) -> int` with a docstring, as in
the repository test class `Demo`. -/
def addFn : PyFunc :=
  { id := 3
    doc := "Arbitrary text that should be preserved."
    params := [{ name := "self" }, { name := "value", annot := some (PyAnnot.cls "int") }]
    retAnn := some (PyAnnot.cls "int")
    call := fun _ => Except.ok PyValue.none }

/-- A class with one annotated attribute `a: int = 1` and one method
`add`, mirroring the repository test class `Demo`. -/
def demoCls : PyClass :=
  { id := 5
    doc := ""
    anns := [("a", PyAnnot.cls "int")]
    values := [("a", PyValue.int 1)]
    methods := [("add", addFn)] }

/-- A class holding only the method `add`, used to witness
auto-propagation. -/
def propClass : PyClass :=
  { id := 9
    doc := ""
    anns := []
    values := []
    methods := [("add", addFn)] }

/-! ## Helper lemmas -/

/-- The five-element join of core.py line 279 is plain concatenation with
one blank line between the pieces. -/
lemma pyJoin_five (a b c : String) :
    pyJoin "\n" [a, "", b, "", c] = a ++ "\n\n" ++ b ++ "\n\n" ++ c := by
  apply String.ext
  simp [pyJoin, String.data_append]

/-- An occurrence inside the right part of an append is an occurrence in
the whole list. -/
lemma infixAppendLeft {α : Type} {pat b : List α} (a : List α) (h : pat <:+: b) :
    pat <:+: a ++ b := by
  obtain ⟨s, t, rfl⟩ := h
  exact ⟨a ++ s, t, by simp [List.append_assoc]⟩

/-- An occurrence inside the left part of an append is an occurrence in
the whole list. -/
lemma infixAppendRight {α : Type} {pat a : List α} (b : List α) (h : pat <:+: a) :
    pat <:+: a ++ b := by
  obtain ⟨s, t, rfl⟩ := h
  exact ⟨s, t ++ b, by simp [List.append_assoc]⟩

/-- Dropping leading whitespace cannot destroy an occurrence of a pattern
that contains no whitespace at all. -/
lemma infixOfDropWhile {pat : List Char} : ∀ {l : List Char}, pat ≠ [] →
    (∀ c ∈ pat, pyWS c = false) → pat <:+: l → pat <:+: l.dropWhile pyWS := by
  intro l
  induction l with
  | nil =>
      intro hne _ h
      exact absurd (List.eq_nil_of_infix_nil h) hne
  | cons x xs ih =>
      intro hne hws h
      rw [List.dropWhile_cons]
      by_cases hx : pyWS x = true
      · rw [if_pos hx]
        apply ih hne hws
        obtain ⟨s, t, hst⟩ := h
        cases s with
        | nil =>
            simp only [List.nil_append] at hst
            cases pat with
            | nil => exact absurd rfl hne
            | cons p ps =>
                simp only [List.cons_append] at hst
                have hp : p = x := (List.cons.injEq _ _ _ _ ▸ hst).1
                have hfalse : pyWS p = false := hws p (List.mem_cons_self p ps)
                rw [hp, hx] at hfalse
                exact absurd hfalse (by simp)
        | cons y s2 =>
            simp only [List.cons_append] at hst
            exact ⟨s2, t, (List.cons.injEq _ _ _ _ ▸ hst).2⟩
      · rw [if_neg hx]
        exact h

/-- `str.strip()` cannot destroy an occurrence of a pattern that contains
no whitespace at all. -/
lemma infixOfStrip {pat : List Char} (l : List Char) (hne : pat ≠ [])
    (hws : ∀ c ∈ pat, pyWS c = false) (h : pat <:+: l) :
    pat <:+: stripData l := by
  unfold stripData
  have h1 : pat <:+: l.dropWhile pyWS := infixOfDropWhile hne hws h
  have h2 : pat.reverse <:+: (l.dropWhile pyWS).reverse := h1.reverse
  have hne2 : pat.reverse ≠ [] := by
    intro hcon
    exact hne (by simpa using congrArg List.reverse hcon)
  have hws2 : ∀ c ∈ pat.reverse, pyWS c = false := by
    intro c hc
    exact hws c (List.mem_reverse.mp hc)
  have h3 : pat.reverse <:+: (l.dropWhile pyWS).reverse.dropWhile pyWS :=
    infixOfDropWhile hne2 hws2 h2
  have h4 := h3.reverse
  simpa using h4

/-- The docstring built at core.py line 279 is the original docstring,
one blank line, and the generated block, all stripped. -/
lemma newFuncDoc_eq_append (ov : List (String × String)) (returns : Option RetArg)
    (f : PyFunc) :
    newFuncDoc ov returns f = pyStrip (f.doc ++ "\n\n" ++ genBlock ov returns f) := by
  unfold newFuncDoc genBlock
  rw [pyJoin_five]
  congr 1
  simp [String.append_assoc]

/-- A string decomposed as `a ++ pat ++ b` has `pat` as a substring. -/
lemma strInfixOfDecomp {pat s : String} (a b : String) (h : s = a ++ pat ++ b) :
    pat.data <:+: s.data := by
  subst h
  exact ⟨a.data, b.data, by simp [String.data_append]⟩

/-- The literal `"Parameters:"` occurs in every docstring `_apply_to_func`
generates. -/
lemma parametersInfixNewFuncDoc (ov : List (String × String)) (returns : Option RetArg)
    (f : PyFunc) :
    "Parameters:".data <:+: (newFuncDoc ov returns f).data := by
  rw [newFuncDoc_eq_append]
  show "Parameters:".data <:+: stripData (f.doc ++ "\n\n" ++ genBlock ov returns f).data
  apply infixOfStrip _ (by decide) (by decide)
  refine strInfixOfDecomp (f.doc ++ "\n\n")
    ("\n-----------\n" ++ paramsBody ov f.params ++ ("\n\n" ++ retSection f.retAnn returns)) ?_
  apply String.ext
  simp [genBlock, paramsSection, String.data_append]

/-- The literal `"Returns:"` occurs in every docstring `_apply_to_func`
generates. -/
lemma returnsInfixNewFuncDoc (ov : List (String × String)) (returns : Option RetArg)
    (f : PyFunc) :
    "Returns:".data <:+: (newFuncDoc ov returns f).data := by
  rw [newFuncDoc_eq_append]
  show "Returns:".data <:+: stripData (f.doc ++ "\n\n" ++ genBlock ov returns f).data
  apply infixOfStrip _ (by decide) (by decide)
  refine strInfixOfDecomp (f.doc ++ "\n\n" ++ (paramsSection ov f.params ++ "\n\n"))
    ("\n--------\n" ++ retBody f.retAnn returns) ?_
  apply String.ext
  simp [genBlock, retSection, String.data_append]

/-- If a member of the method table has a non-dunder name, the table
produced by the decoration loop holds, under the same name, a wrapper
whose docstring contains the Parameters and Returns headers. -/
lemma decorateMethods_mem (nm : String) (f : PyFunc) :
    ∀ (l : List (String × PyFunc)) (fr : Nat), (nm, f) ∈ l → pyStartsWith nm "__" = false →
      ∃ g : PyFunc, (nm, g) ∈ decorateMethods fr l
        ∧ "Parameters:".data <:+: g.doc.data ∧ "Returns:".data <:+: g.doc.data := by
  intro l
  induction l with
  | nil =>
      intro fr h _
      cases h
  | cons m rest ih =>
      intro fr h hn
      rcases List.mem_cons.mp h with heq | hrest
      · refine ⟨applyToFunc [] Option.none fr f, ?_, ?_, ?_⟩
        · have hm : m = (nm, f) := heq.symm
          subst hm
          simp [decorateMethods, hn]
        · exact parametersInfixNewFuncDoc [] Option.none f
        · exact returnsInfixNewFuncDoc [] Option.none f
      · obtain ⟨g, hg, h1, h2⟩ := ih (fr + 1) hrest hn
        exact ⟨g, List.mem_cons_of_mem _ hg, h1, h2⟩

/-! ## The claims -/

/-- C1: the claim states that re-applying the decoration is a no-op (the
documentation after applying twice equals the documentation after applying
once, with a single `Parameters:` occurrence, and a decorated class is
left unchanged by re-application).  The code has no applied-marker and no
duplicate check, so decorating the returned wrapper again appends the
generated sections a second time, and re-decorating a class appends a
second Attributes block: evaluated at the concrete inputs, `Parameters:`
occurs twice and the docstrings differ. -/
theorem double_application_duplicates :
    countOccur "Parameters:" squareOnce.doc = 1
  ∧ countOccur "Parameters:" squareTwice.doc = 2
  ∧ squareTwice.doc ≠ squareOnce.doc
  ∧ countOccur "Attributes:" (applyToClass [] 6 demoCls).doc = 1
  ∧ countOccur "Attributes:" (applyToClass [] 7 (applyToClass [] 6 demoCls)).doc = 2
  ∧ (applyToClass [] 7 (applyToClass [] 6 demoCls)).doc ≠ (applyToClass [] 6 demoCls).doc := by
  decide

/-- C2 (counterexample): the claim states that when the generated block
already occurs verbatim in the existing documentation the documentation is
left unchanged.  At `squareOnce` (whose docstring contains its own
generated block verbatim, by construction) the code still appends: the new
docstring differs from the old one. -/
theorem merge_rule_counterexample :
    (genBlock [] Option.none squareOnce).data <:+: squareOnce.doc.data
  ∧ newFuncDoc [] Option.none squareOnce ≠ squareOnce.doc := by
  decide

/-- C2 (amended): the merge performs no substring check and no
right-trimming of the existing documentation; the new docstring is always
the existing docstring, one inserted blank line, and the generated block,
with the final result stripped of leading and trailing whitespace. -/
theorem merge_always_appends (ov : List (String × String)) (returns : Option RetArg)
    (f : PyFunc) :
    newFuncDoc ov returns f = pyStrip (f.doc ++ "\n\n" ++ genBlock ov returns f) :=
  newFuncDoc_eq_append ov returns f

/-- C3: the claim states that an absent return annotation renders a
Returns body of exactly `None`, regardless of any supplied description.
In the code the absent annotation is replaced by `type(None)`, whose
`__name__` is `"NoneType"`, so the guard `ret_type != "None"` succeeds and
the body renders as `NoneType`, with a supplied description appended
underneath rather than suppressed. -/
theorem returns_body_nonetype :
    retSection Option.none Option.none = "Returns:\n--------\nNoneType"
  ∧ retSection Option.none (some (RetArg.str "x squared"))
      = "Returns:\n--------\nNoneType\n    x squared" := by
  decide

/-- C4 (counterexample): the claim states that a parameter declared with
default `None` still renders a `Default:` line.  The code uses `None` as
its own sentinel for an absent default, so the entry for a parameter with
declared default `None` carries no `Default:` line at all. -/
theorem default_none_no_line :
    paramEntry [] { name := "x", annot := some (PyAnnot.cls "int"), default := some PyValue.none }
      = ["x : int", ""]
  ∧ countOccur "Default:" (pyJoin "\n" (paramEntry []
      { name := "x", annot := some (PyAnnot.cls "int"), default := some PyValue.none })) = 0 := by
  decide

/-- The rendered `Default:` line for the integer `0`. -/
lemma default_zero_line : "    Default: " ++ toString (0 : Int) = "    Default: 0" := by
  decide

/-- C4 (amended): with a non-wrapper annotation and no description
override, a parameter with no declared default renders no `Default:` line,
a parameter with default `0` renders the line `    Default: 0`, and a
parameter with declared default `None` is indistinguishable from one with
no default and also renders no `Default:` line. -/
theorem default_line_rendering (nm : String) (t : PyAnnot)
    (ht : ∀ a : AnnWrap, t ≠ PyAnnot.wrapped a)
    (ov : List (String × String)) (hov : List.lookup nm ov = Option.none) :
    paramEntry ov { name := nm, annot := some t, default := Option.none }
      = [nm ++ " : " ++ pyTypeName t, ""]
  ∧ paramEntry ov { name := nm, annot := some t, default := some (PyValue.int 0) }
      = [nm ++ " : " ++ pyTypeName t, "    Default: 0", ""]
  ∧ paramEntry ov { name := nm, annot := some t, default := some PyValue.none }
      = [nm ++ " : " ++ pyTypeName t, ""] := by
  cases t with
  | wrapped a => exact absurd rfl (ht a)
  | cls n =>
      refine ⟨?_, ?_, ?_⟩ <;> simp [paramEntry, resolveSlot, hov, pyRepr, default_zero_line]
  | generic o as =>
      refine ⟨?_, ?_, ?_⟩ <;> simp [paramEntry, resolveSlot, hov, pyRepr, default_zero_line]
  | any =>
      refine ⟨?_, ?_, ?_⟩ <;> simp [paramEntry, resolveSlot, hov, pyRepr, default_zero_line]

/-- Witness for C4 at the concrete parameter `x : int`. -/
theorem default_line_rendering_witness :
    paramEntry [] { name := "x", annot := some (PyAnnot.cls "int"), default := Option.none }
      = ["x : int", ""]
  ∧ paramEntry [] { name := "x", annot := some (PyAnnot.cls "int"), default := some (PyValue.int 0) }
      = ["x : int", "    Default: 0", ""]
  ∧ paramEntry [] { name := "x", annot := some (PyAnnot.cls "int"), default := some PyValue.none }
      = ["x : int", ""] :=
  default_line_rendering "x" (PyAnnot.cls "int") (fun _ h => PyAnnot.noConfusion h) [] rfl

/-- C5: the description-source precedence is strict: a decoration-time
override in the `params` mapping wins over a wrapper description, a
wrapper description wins over a bare type hint (whose description is
empty), and with no annotation at all the type renders as the `Any`
fallback. -/
theorem description_precedence :
    (∀ (ov : List (String × String)) (p : Param) (a : AnnWrap) (d : String),
        p.annot = some (PyAnnot.wrapped a) → List.lookup p.name ov = some d →
        (resolveSlot ov p).2.1 = d)
  ∧ (∀ (ov : List (String × String)) (p : Param) (a : AnnWrap),
        p.annot = some (PyAnnot.wrapped a) → List.lookup p.name ov = Option.none →
        (resolveSlot ov p).2.1 = a.description)
  ∧ (∀ (ov : List (String × String)) (p : Param) (t : PyAnnot),
        p.annot = some t → (∀ a : AnnWrap, t ≠ PyAnnot.wrapped a) →
        List.lookup p.name ov = Option.none →
        (resolveSlot ov p).2.1 = "")
  ∧ (∀ (ov : List (String × String)) (p : Param),
        p.annot = Option.none → (resolveSlot ov p).1 = "Any") := by
  refine ⟨?_, ?_, ?_, ?_⟩
  · intro ov p a d ha hd
    simp [resolveSlot, ha, hd]
  · intro ov p a ha hd
    simp [resolveSlot, ha, hd]
  · intro ov p t ht hw hd
    cases t with
    | wrapped a => exact absurd rfl (hw a)
    | cls n => simp [resolveSlot, ht, hd]
    | generic o as => simp [resolveSlot, ht, hd]
    | any => simp [resolveSlot, ht, hd]
  · intro ov p hp
    cases hL : List.lookup p.name ov <;>
      simp [resolveSlot, hp, hL, pyTypeName]

/-- Witness for C5: override beats wrapper text, wrapper text is used when
no override exists, a bare hint has no description, and no annotation
renders `Any`. -/
theorem description_precedence_witness :
    (resolveSlot [("x", "override text")]
      { name := "x", annot := some (PyAnnot.wrapped
          { typeName := "int", description := "wrapped text" }) }).2.1 = "override text"
  ∧ (resolveSlot []
      { name := "x", annot := some (PyAnnot.wrapped
          { typeName := "int", description := "wrapped text" }) }).2.1 = "wrapped text"
  ∧ (resolveSlot [] { name := "x", annot := some (PyAnnot.cls "int") }).2.1 = ""
  ∧ (resolveSlot [] { name := "x" }).1 = "Any" :=
  ⟨description_precedence.1 [("x", "override text")]
      { name := "x", annot := some (PyAnnot.wrapped
          { typeName := "int", description := "wrapped text" }) }
      { typeName := "int", description := "wrapped text" } "override text" rfl rfl,
   description_precedence.2.1 []
      { name := "x", annot := some (PyAnnot.wrapped
          { typeName := "int", description := "wrapped text" }) }
      { typeName := "int", description := "wrapped text" } rfl rfl,
   description_precedence.2.2.1 [] { name := "x", annot := some (PyAnnot.cls "int") }
      (PyAnnot.cls "int") rfl (fun _ h => PyAnnot.noConfusion h) rfl,
   description_precedence.2.2.2 [] { name := "x" } rfl⟩

/-- C6: the claim (and the repository test `test_generic_type_rendering`)
states that a parameter annotated `list[int]` renders as the line
`values : list[int]`, recursively for nested generics.  The code reads
`getattr(annotation, "__name__", str(annotation))`, and a builtin generic
alias delegates `__name__` to its origin, so only the origin name is ever
rendered: the entry line is `values : list`, and a nested generic renders
as its bare origin as well. -/
theorem generic_renders_origin_only :
    paramEntry [] { name := "values", annot := some (PyAnnot.generic "list" [PyAnnot.cls "int"]) }
      = ["values : list", ""]
  ∧ (resolveSlot [] (Param.mk "m"
        (some (PyAnnot.generic "dict"
          [PyAnnot.cls "str", PyAnnot.generic "list" [PyAnnot.cls "int"]]))
        Option.none)).1 = "dict" := by
  decide

/-- C7: decorating a class applies the function-case procedure to every
directly-defined callable member whose name is not dunder-prefixed: under
the same name the resulting class holds a wrapper whose docstring contains
the Parameters and the Returns section headers. -/
theorem class_auto_propagation (cv : List (String × String)) (fresh : Nat) (c : PyClass)
    (nm : String) (f : PyFunc) (hmem : (nm, f) ∈ c.methods)
    (hn : pyStartsWith nm "__" = false) :
    ∃ g : PyFunc, (nm, g) ∈ (applyToClass cv fresh c).methods
      ∧ "Parameters:".data <:+: g.doc.data
      ∧ "Returns:".data <:+: g.doc.data :=
  decorateMethods_mem nm f c.methods fresh hmem hn

/-- Witness for C7 at the concrete class holding the method `add`. -/
theorem class_auto_propagation_witness :
    ∃ g : PyFunc, ("add", g) ∈ (applyToClass [] 0 propClass).methods
      ∧ "Parameters:".data <:+: g.doc.data
      ∧ "Returns:".data <:+: g.doc.data :=
  class_auto_propagation [] 0 propClass "add" addFn (List.mem_cons_self _ _) (by decide)

/-- C8 (counterexample): the claim states that the receiver parameter of a
classmethod (conventionally `cls`) is never documented.  The code skips
only the literal name `self`, so a parameter list starting with `cls`
renders a `cls : Any` entry. -/
theorem cls_param_documented :
    paramDocs [] [{ name := "cls" }, { name := "x", annot := some (PyAnnot.cls "int") }]
      = ["cls : Any", "", "x : int", ""] := by
  decide

/-- C8 (amended): exactly the parameters named `self` are excluded, at any
position and whatever their annotation or default; every other parameter
(including a receiver named `cls`) is rendered, in declaration order. -/
theorem self_name_exclusion :
    (∀ (ov : List (String × String)) (ps qs : List Param)
        (a : Option PyAnnot) (d : Option PyValue),
        paramDocs ov (ps ++ { name := "self", annot := a, default := d } :: qs)
          = paramDocs ov (ps ++ qs))
  ∧ (∀ (ov : List (String × String)) (p : Param) (ps : List Param), p.name ≠ "self" →
        paramDocs ov (p :: ps) = paramEntry ov p ++ paramDocs ov ps) := by
  constructor
  · intro ov ps qs a d
    simp [paramDocs, List.filter_append, List.filter_cons]
  · intro ov p ps hp
    simp [paramDocs, List.filter_cons, hp]

/-- Witness for C8: a `self` entry in the middle of a list changes
nothing, and a parameter named `value` contributes its own entry. -/
theorem self_name_exclusion_witness :
    paramDocs [] [{ name := "self" }, { name := "x", annot := some (PyAnnot.cls "int") }]
      = paramDocs [] [{ name := "x", annot := some (PyAnnot.cls "int") }]
  ∧ paramDocs [] [{ name := "value", annot := some (PyAnnot.cls "int") }]
      = paramEntry [] { name := "value", annot := some (PyAnnot.cls "int") }
          ++ paramDocs [] [] :=
  ⟨self_name_exclusion.1 [] [] [{ name := "x", annot := some (PyAnnot.cls "int") }]
      Option.none Option.none,
   self_name_exclusion.2 [] { name := "value", annot := some (PyAnnot.cls "int") } []
      (by decide)⟩

/-- C9: the wrapper returned by `_apply_to_func` delegates every call to
the original function unchanged, so for every argument list the decorated
function returns the same result and raises the same exception as the
original; decoration changes only documentation metadata. -/
theorem wrapper_preserves_call (ov : List (String × String)) (returns : Option RetArg)
    (fresh : Nat) (f : PyFunc) (args : List PyValue) :
    (applyToFunc ov returns fresh f).call args = f.call args := rfl

/-- C10: `_apply_to_func` returns a freshly allocated wrapper object (a
different object from its argument, which it never writes to), while
`_apply_to_class` mutates the class in place and returns the same class
object, touching only its docstring and its method table (annotations and
plain class values are untouched). -/
theorem apply_allocation_and_frame :
    (∀ (ov : List (String × String)) (returns : Option RetArg) (fresh : Nat) (f : PyFunc),
        fresh ≠ f.id → (applyToFunc ov returns fresh f).id ≠ f.id)
  ∧ (∀ (cv : List (String × String)) (fresh : Nat) (c : PyClass),
        (applyToClass cv fresh c).id = c.id
      ∧ (applyToClass cv fresh c).anns = c.anns
      ∧ (applyToClass cv fresh c).values = c.values) := by
  constructor
  · intro ov returns fresh f h
    simpa [applyToFunc] using h
  · intro cv fresh c
    exact ⟨rfl, rfl, rfl⟩

/-- Witness for C10 at the concrete function and class objects. -/
theorem apply_allocation_and_frame_witness :
    (applyToFunc [] Option.none 1 squareFn).id ≠ squareFn.id
  ∧ (applyToClass [] 6 demoCls).id = demoCls.id :=
  ⟨apply_allocation_and_frame.1 [] Option.none 1 squareFn (by decide),
   (apply_allocation_and_frame.2 [] 6 demoCls).1⟩

end Doxs
